import Mathlib

/-!
Verification of the BrandPrompt extension frontend.

Shallow embedding of the repository's effective logic:
- the backend API client embedded in
  src/prompt_extension_frontend/src/test_app_flow.js (functions
  inferBackendUrlFromWindowLocation, resolveBaseUrl, mapOrientation,
  mapPlatform, generatePrompt and the helpers safeReadBodyText /
  safeReadJson / makeHttpError), and
- the storage shim src/prompt_extension_frontend/src/storage.js
  (loadSettings / saveSettings).

JavaScript conventions modelled explicitly:
- optional string-valued settings fields become `Option String`; the JS
  falsy test `!x` on such a field is `(x.getD "").trim = ""` when the code
  trims first, and `x = none or x = some ""` otherwise;
- the JS short-circuit `a || b` on strings becomes "if a is empty/absent
  then b else a";
- `throw new Error(msg)` before the network call becomes `Except.error msg`;
- an HTTP `fetch` Response is a record of its status, body text and the
  result of JSON-decoding the body (`none` when the body is not parseable
  JSON or decodes to a falsy value, exactly what `safeReadJson` yields);
  `res.ok` is the WHATWG fetch definition, status in [200, 300);
- `JSON.stringify` / `JSON.parse` (JS built-ins) are treated as an exact
  codec on JSON-serializable records, so the browser-local fallback slot
  stores the decoded settings record directly;
- request-body fields that the code sets to `str || null` take values in
  `StrOrNull`: `JSON.stringify` serializes a `null` field as a present key
  with value `null`, so such a field is never absent from the posted body.
-/

/-- JS `String.prototype.trim()`: drop leading and trailing whitespace.
Modelled over the character list so it evaluates by kernel reduction. -/
def jsTrim (s : String) : String :=
  String.mk (((s.data.dropWhile Char.isWhitespace).reverse.dropWhile Char.isWhitespace).reverse)

/-- JS `String.prototype.toLowerCase()` on the ASCII labels this client
compares against. -/
def jsToLowerCase (s : String) : String :=
  String.mk (s.data.map Char.toLower)

/-- JS `String.prototype.split(",")` over the character list: like JS, it
keeps empty pieces and yields `[""]` on the empty string. -/
def jsSplitCommasAux : List Char → List Char → List String
  | [], acc => [String.mk acc.reverse]
  | c :: rest, acc =>
    if c = ',' then String.mk acc.reverse :: jsSplitCommasAux rest []
    else jsSplitCommasAux rest (c :: acc)

/-- JS `s.split(",")`. -/
def jsSplitCommas (s : String) : List String :=
  jsSplitCommasAux s.data []

/-- The persisted settings record (all fields optional strings, mirroring the
flat JS object built from DEFAULT_SETTINGS in the popup UI). -/
structure Settings where
  backendBaseUrl : Option String := none
  orientation : Option String := none
  platform : Option String := none
  objective : Option String := none
  audience : Option String := none
  topic : Option String := none
  context : Option String := none
  brandName : Option String := none
  brandVoice : Option String := none
  brandDo : Option String := none
  brandDont : Option String := none
  keywords : Option String := none
deriving DecidableEq

/-- The empty record `{}` that the storage shim returns on absence/failure. -/
def emptySettings : Settings := {}

/-- A JSON field value that the client sets to either a string or `null`
(the pattern `expr || null` in the request-body construction). -/
inductive StrOrNull where
  | null : StrOrNull
  | str : String → StrOrNull
deriving DecidableEq

/-- Whether a `StrOrNull` field holds a string value (the spec's
"string or absent" prediction: the key is always serialized, so the only
way to satisfy it is to be a string). -/
def StrOrNull.isStr : StrOrNull → Bool
  | .str _ => true
  | .null => false

/-- Models the JS pattern `field?.trim() || null` used for
`additional_context`, `description`, `target_audience` and
`formatting_notes`. -/
def strOrNullOfTrim (o : Option String) : StrOrNull :=
  let t := jsTrim (o.getD "")
  if t = "" then .null else .str t

/-- mapOrientation from test_app_flow.js lines 276-283: lower-case the UI
label and run the if-chain; unmatched labels map to "other". -/
def mapOrientation (uiOrientation : Option String) : String :=
  let v := jsToLowerCase (uiOrientation.getD "")
  if v = "post" then "post"
  else if v = "ad" then "ad"
  else if v = "email" then "email"
  else if v = "landing page" ∨ v = "landing_page" then "landing_page"
  else "other"

/-- mapPlatform from test_app_flow.js lines 285-295. -/
def mapPlatform (uiPlatform : Option String) : String :=
  let v := jsToLowerCase (uiPlatform.getD "")
  if v = "linkedin" then "linkedin"
  else if v = "x (twitter)" ∨ v = "x" ∨ v = "twitter" then "x"
  else if v = "instagram" then "instagram"
  else if v = "facebook" then "facebook"
  else if v = "tiktok" then "tiktok"
  else if v = "google ads" ∨ v = "google_ads" then "other"
  else "other"

/-- brand.voice block of the posted request body. -/
structure BrandVoice where
  tone : String
  keywords : List String
  avoid : List String
deriving DecidableEq

/-- brand block of the posted request body. -/
structure Brand where
  brand_name : String
  description : StrOrNull
  target_audience : StrOrNull
  voice : BrandVoice
deriving DecidableEq

/-- style block of the posted request body. -/
structure Style where
  length : String
  include_hashtags : Bool
  emoji_level : Nat
  formatting_notes : StrOrNull
deriving DecidableEq

/-- The request body posted to /prompts/generate. -/
structure GenerationRequest where
  orientation : String
  platform : String
  brief : String
  additional_context : StrOrNull
  brand : Brand
  style : Style
deriving DecidableEq

/-- The keywords conversion in generatePrompt (test_app_flow.js lines
317-320): split on ",", trim each token, `.filter(Boolean)` drops the empty
ones. -/
def keywordsOf (s : Settings) : List String :=
  ((jsSplitCommas (s.keywords.getD "")).map jsTrim).filter (fun t => t ≠ "")

/-- The avoid derivation (lines 336-338):
`settings?.brandDont ? [String(settings.brandDont).trim()].filter(Boolean) : []`.
The ternary tests JS truthiness of the raw field; the filter then drops a
whitespace-only trim result. -/
def avoidOf (brandDont : Option String) : List String :=
  match brandDont with
  | none => []
  | some d =>
    if d = "" then []
    else if jsTrim d = "" then [] else [jsTrim d]

/-- The requestBody object literal of generatePrompt (lines 322-348),
parameterized by the already-validated brand name and brief. -/
def buildRequestBody (s : Settings) (brandName brief : String) : GenerationRequest :=
  { orientation := mapOrientation s.orientation
    platform := mapPlatform s.platform
    brief := brief
    additional_context := strOrNullOfTrim s.context
    brand :=
      { brand_name := brandName
        description := strOrNullOfTrim s.context
        target_audience := strOrNullOfTrim s.audience
        voice :=
          { tone := "professional"
            keywords := keywordsOf s
            avoid := avoidOf s.brandDont } }
    style :=
      { length := "medium"
        include_hashtags := true
        emoji_level := 0
        formatting_notes := strOrNullOfTrim s.brandDo } }

/-- The brief derivation (line 311):
`settings?.topic?.trim() || settings?.context?.trim()` - the trimmed topic
when non-empty, else the trimmed context (empty when both are blank or
absent). -/
def briefOf (s : Settings) : String :=
  let t := jsTrim (s.topic.getD "")
  if t = "" then jsTrim (s.context.getD "") else t

/-- The validation and request-body construction phase of generatePrompt
(lines 305-348): everything that runs before `fetch` is invoked.
`Except.error msg` models `throw new Error(msg)`; in that case the function
aborts before any network call. -/
def generatePromptRequest (s : Settings) : Except String GenerationRequest :=
  let brandName := jsTrim (s.brandName.getD "")
  if brandName = "" then Except.error "Brand name is required to generate a prompt."
  else
    let brief := briefOf s
    if brief = "" then Except.error "Topic (or Context) is required to generate a prompt."
    else Except.ok (buildRequestBody s brandName brief)

/-- The `prompt` field of the decoded response body, as inspected by
`typeof json.prompt !== "string"`. -/
inductive PromptField where
  | missing : PromptField
  | nonString : PromptField
  | str : String → PromptField
deriving DecidableEq

/-- A decoded (truthy) JSON response body; only the `prompt` field is
inspected by the client. -/
structure ResponseBody where
  promptField : PromptField
deriving DecidableEq

/-- A fetch Response as observed by generatePrompt: numeric status, raw body
text (what `safeReadBodyText` returns) and the decoded JSON body (what
`safeReadJson` returns: `none` when the body is not parseable JSON or
decodes to a falsy value such as `null`). -/
structure HttpResponse where
  status : Nat
  bodyText : String
  parsedJson : Option ResponseBody
deriving DecidableEq

/-- WHATWG fetch `Response.ok`: status in the inclusive range 200-299. -/
def HttpResponse.isOkStatus (r : HttpResponse) : Bool :=
  decide (200 ≤ r.status ∧ r.status < 300)

/-- Errors thrown by generatePrompt: a plain validation Error (thrown before
fetch), or the enriched Error built by makeHttpError carrying `message`,
`status` and `bodyText`. -/
inductive GenError where
  | validationErr : String → GenError
  | httpErr : String → Nat → String → GenError
deriving DecidableEq

/-- generatePrompt end to end (lines 305-379), with the HTTP response it
would receive supplied as an explicit input. The Bool component records
whether `fetch` was invoked (the code reaches line 350). -/
def generatePrompt (s : Settings) (res : HttpResponse) :
    Bool × Except GenError ResponseBody :=
  match generatePromptRequest s with
  | .error m => (false, Except.error (GenError.validationErr m))
  | .ok _ =>
    (true,
      if !res.isOkStatus then
        Except.error (GenError.httpErr ("Generate failed (" ++ toString res.status ++ ")")
          res.status res.bodyText)
      else
        match res.parsedJson with
        | none =>
          Except.error (GenError.httpErr
            "Generate response was not valid JSON (or missing prompt)"
            res.status res.bodyText)
        | some body =>
          match body.promptField with
          | .str _ => Except.ok body
          | _ =>
            Except.error (GenError.httpErr
              "Generate response was not valid JSON (or missing prompt)"
              res.status res.bodyText))

/-- The storage key used by storage.js. -/
def STORAGE_KEY : String := "brandprompt_settings_v1"

/-- The ambient environment of storage.js: whether
`chromeApi?.storage?.local` is available, whether its get/set calls throw
or reject, the value it holds under STORAGE_KEY, whether the localStorage
calls throw, and the (decoded) value localStorage holds under STORAGE_KEY. -/
structure StorageWorld where
  chromePresent : Bool
  chromeGetFails : Bool
  chromeSetFails : Bool
  chromeStore : Option Settings
  localFails : Bool
  localStore : Option Settings
deriving DecidableEq

/-- loadSettings from storage.js lines 36-56. The first try/catch block
returns `some r` when it reaches a `return` (extension API present and the
get call succeeded, with `result?.[STORAGE_KEY] ?? {}` applied); `none`
means the guard was false or the exception was caught and control fell
through to the localStorage block, whose own catch returns `{}`. An
`Except.error` result would model an uncaught exception; the function never
produces one. -/
def loadSettings (w : StorageWorld) : Except Unit Settings :=
  let firstTry : Option Settings :=
    if w.chromePresent then
      if w.chromeGetFails then none
      else some (w.chromeStore.getD emptySettings)
    else none
  match firstTry with
  | some r => Except.ok r
  | none =>
    if w.localFails then Except.ok emptySettings
    else Except.ok (w.localStore.getD emptySettings)

/-- saveSettings from storage.js lines 64-81, same shape as loadSettings:
chrome set first (returning on success), localStorage fallback, every
failure caught and logged. Returns the updated world. -/
def saveSettings (w : StorageWorld) (s : Settings) : Except Unit StorageWorld :=
  let firstTry : Option StorageWorld :=
    if w.chromePresent then
      if w.chromeSetFails then none
      else some { w with chromeStore := some s }
    else none
  match firstTry with
  | some w2 => Except.ok w2
  | none =>
    if w.localFails then Except.ok w
    else Except.ok { w with localStore := some s }

/-- DEFAULT_BASE_URL from the API client. -/
def DEFAULT_BASE_URL : String := "http://localhost:3001"

/-- The part of `window.location` read by
inferBackendUrlFromWindowLocation. -/
structure WindowLocation where
  hostname : String
  protocol : String
deriving DecidableEq

/-- inferBackendUrlFromWindowLocation (test_app_flow.js lines 133-148):
`none` models the JS `null` returned when `window` is undefined. -/
def inferBackendUrlFromWindowLocation (window : Option WindowLocation) : Option String :=
  match window with
  | none => none
  | some loc =>
    if loc.hostname = "localhost" ∨ loc.hostname = "127.0.0.1" then some DEFAULT_BASE_URL
    else
      let backendPort := "3001"
      some (loc.protocol ++ "//" ++ loc.hostname ++ ":" ++ backendPort)

/-- JS string short-circuit `o || d` where `o` may be undefined (`none`) or
an empty (falsy) string. -/
def jsOrS (o : Option String) (d : String) : String :=
  match o with
  | none => d
  | some t => if t = "" then d else t

/-- The regex normalization `chosen.replace(/\/+$/, "")`: drop every
trailing "/" character. -/
def stripTrailingSlashes (s : String) : String :=
  String.mk ((s.data.reverse.dropWhile (fun c => c = '/')).reverse)

/-- resolveBaseUrl (test_app_flow.js lines 156-162):
`settings?.backendBaseUrl?.trim() || inferBackendUrlFromWindowLocation() || DEFAULT_BASE_URL`,
then trailing slashes stripped. Total, hence never raises. -/
def resolveBaseUrl (window : Option WindowLocation) (settings : Option Settings) : String :=
  let fromSettings : Option String :=
    (settings.bind (fun st => st.backendBaseUrl)).map jsTrim
  let chosen := jsOrS fromSettings (jsOrS (inferBackendUrlFromWindowLocation window) DEFAULT_BASE_URL)
  stripTrailingSlashes chosen

/-- Lookup in a fixed table of label-value pairs, first match wins, with a
default for unmatched keys. Used only to state the spec's description of
the enum mappings as "fixed lookup tables". -/
def tableLookup : List (String × String) → String → String → String
  | [], _, d => d
  | (k, v) :: rest, key, d => if key = k then v else tableLookup rest key d

/-- The orientation lookup table exactly as the spec lists it. -/
def specOrientationTable : List (String × String) :=
  [("post", "post"), ("ad", "ad"), ("email", "email"),
   ("landing page", "landing_page"), ("landing_page", "landing_page")]

/-- The platform lookup table exactly as the spec lists it. -/
def specPlatformTable : List (String × String) :=
  [("linkedin", "linkedin"), ("x (twitter)", "x"), ("x", "x"), ("twitter", "x"),
   ("instagram", "instagram"), ("facebook", "facebook"), ("tiktok", "tiktok"),
   ("google ads", "other"), ("google_ads", "other")]

/-- Spec-side orientation mapping: case-insensitive fixed-table lookup,
anything else to "other". -/
def specMapOrientation (label : Option String) : String :=
  tableLookup specOrientationTable (jsToLowerCase (label.getD "")) "other"

/-- Spec-side platform mapping: case-insensitive fixed-table lookup,
anything else to "other". -/
def specMapPlatform (label : Option String) : String :=
  tableLookup specPlatformTable (jsToLowerCase (label.getD "")) "other"

/-- Spec-side keywords conversion: split on commas, trim each token, drop
empty tokens. -/
def specSplitKeywords (s : String) : List String :=
  ((jsSplitCommas s).map jsTrim).filter (fun t => t ≠ "")

/-- Spec-side avoid derivation: a single-element list holding the trimmed
brandDont when that is non-empty, else an empty list. -/
def specAvoid (brandDont : Option String) : List String :=
  let t := jsTrim (brandDont.getD "")
  if t = "" then [] else [t]

/-- The code's if-chain equals the spec's table lookup, orientation. -/
lemma mapOrientation_eq_spec (o : Option String) :
    mapOrientation o = specMapOrientation o := by
  simp only [mapOrientation, specMapOrientation, specOrientationTable, tableLookup]
  split_ifs <;> simp_all

/-- The code's if-chain equals the spec's table lookup, platform. -/
lemma mapPlatform_eq_spec (p : Option String) :
    mapPlatform p = specMapPlatform p := by
  simp only [mapPlatform, specMapPlatform, specPlatformTable, tableLookup]
  split_ifs <;> simp_all

/-- The code's avoid derivation equals the spec's. -/
lemma avoidOf_eq_spec (o : Option String) : avoidOf o = specAvoid o := by
  cases o with
  | none => rfl
  | some d =>
    by_cases h1 : d = ""
    · subst h1; rfl
    · by_cases h2 : jsTrim d = ""
      · simp [avoidOf, specAvoid, h1, h2]
      · simp [avoidOf, specAvoid, h1, h2]

/-- The concrete input of the spec's worked example for generatePrompt. -/
def c1Settings : Settings :=
  { brandName := some "Acme"
    topic := some "Topic here"
    orientation := some "Landing Page"
    platform := some "X (Twitter)"
    keywords := some "one, two"
    brandDont := some "Avoid emojis." }

/-- C1: for every settings record with non-empty trimmed brandName and a
non-empty brief, generatePrompt posts the body built by buildRequestBody;
orientation and platform are mapped through the spec's fixed
case-insensitive lookup tables (unmatched labels to "other"), keywords is
the comma-split trimmed non-empty token list, avoid is the one-element list
of the trimmed brandDont when non-empty and empty otherwise; on the spec's
worked example the posted body has orientation "landing_page", platform
"x", brief "Topic here", keywords ["one", "two"] and avoid
["Avoid emojis."]. -/
theorem generatePrompt_request_mapping :
    (∀ s : Settings, jsTrim (s.brandName.getD "") ≠ "" → briefOf s ≠ "" →
      generatePromptRequest s =
        Except.ok (buildRequestBody s (jsTrim (s.brandName.getD "")) (briefOf s))) ∧
    (∀ o, mapOrientation o = specMapOrientation o) ∧
    (∀ p, mapPlatform p = specMapPlatform p) ∧
    (∀ (s : Settings) (bn br : String),
      (buildRequestBody s bn br).brand.voice.keywords = specSplitKeywords (s.keywords.getD "") ∧
      (buildRequestBody s bn br).brand.voice.avoid = specAvoid s.brandDont) ∧
    ((generatePromptRequest c1Settings).toOption.map
        (fun b => (b.orientation, b.platform, b.brief, b.brand.voice.keywords,
          b.brand.voice.avoid))
      = some ("landing_page", "x", "Topic here", ["one", "two"], ["Avoid emojis."])) := by
  refine ⟨?_, mapOrientation_eq_spec, mapPlatform_eq_spec, ?_, ?_⟩
  · intro s h1 h2
    simp [generatePromptRequest, h1, h2]
  · intro s bn br
    exact ⟨rfl, avoidOf_eq_spec s.brandDont⟩
  · rfl

/-- C1 witness: the general body-construction statement applied at the
worked example's concrete input. -/
theorem generatePrompt_request_mapping_witness :
    generatePromptRequest c1Settings =
      Except.ok (buildRequestBody c1Settings (jsTrim (c1Settings.brandName.getD ""))
        (briefOf c1Settings)) :=
  generatePrompt_request_mapping.1 c1Settings (by decide) (by decide)

/-- C2: when brandName is absent, empty or whitespace-only after trimming,
generatePrompt rejects with exactly the validation message
"Brand name is required to generate a prompt." and never reaches fetch
(first component false). -/
theorem generatePrompt_brand_name_required (s : Settings) (res : HttpResponse)
    (h : jsTrim (s.brandName.getD "") = "") :
    generatePrompt s res =
      (false, Except.error (GenError.validationErr
        "Brand name is required to generate a prompt.")) := by
  simp [generatePrompt, generatePromptRequest, h]

/-- C2 witness: the spec's example input, a record holding only
topic = "t". -/
theorem generatePrompt_brand_name_required_witness :
    generatePrompt { topic := some "t" }
        { status := 200, bodyText := "", parsedJson := none } =
      (false, Except.error (GenError.validationErr
        "Brand name is required to generate a prompt.")) :=
  generatePrompt_brand_name_required _ _ (by decide)

/-- C3: with a valid brand name the posted brief is the trimmed topic when
that is non-empty, else the trimmed context; when both are blank the call
rejects with the "Topic (or Context) is required to generate a prompt."
validation message (which matches "Topic ... required") and fetch is never
reached. -/
theorem generatePrompt_brief_preference :
    (∀ s : Settings, jsTrim (s.brandName.getD "") ≠ "" → jsTrim (s.topic.getD "") ≠ "" →
      (generatePromptRequest s).toOption.map (fun b => b.brief)
        = some (jsTrim (s.topic.getD ""))) ∧
    (∀ s : Settings, jsTrim (s.brandName.getD "") ≠ "" → jsTrim (s.topic.getD "") = "" →
        jsTrim (s.context.getD "") ≠ "" →
      (generatePromptRequest s).toOption.map (fun b => b.brief)
        = some (jsTrim (s.context.getD ""))) ∧
    (∀ (s : Settings) (res : HttpResponse), jsTrim (s.brandName.getD "") ≠ "" →
        jsTrim (s.topic.getD "") = "" → jsTrim (s.context.getD "") = "" →
      generatePrompt s res =
        (false, Except.error (GenError.validationErr
          "Topic (or Context) is required to generate a prompt."))) := by
  refine ⟨?_, ?_, ?_⟩
  · intro s h1 h2
    simp [generatePromptRequest, briefOf, buildRequestBody, Except.toOption, h1, h2]
  · intro s h1 h2 h3
    simp [generatePromptRequest, briefOf, buildRequestBody, Except.toOption, h1, h2, h3]
  · intro s res h1 h2 h3
    simp [generatePrompt, generatePromptRequest, briefOf, h1, h2, h3]

/-- C3 witness: brand name present, topic and context absent. -/
theorem generatePrompt_brief_preference_witness :
    generatePrompt { brandName := some "Acme" }
        { status := 200, bodyText := "", parsedJson := none } =
      (false, Except.error (GenError.validationErr
        "Topic (or Context) is required to generate a prompt.")) :=
  generatePrompt_brief_preference.2.2 _ _ (by decide) (by decide) (by decide)

/-- C4: on a non-2xx response the call rejects with the makeHttpError error
carrying the numeric status and the raw response body text (message
"Generate failed (status)"). -/
theorem generatePrompt_http_failure (s : Settings) (res : HttpResponse)
    (b : GenerationRequest)
    (h1 : generatePromptRequest s = Except.ok b)
    (h2 : ¬ (200 ≤ res.status ∧ res.status < 300)) :
    generatePrompt s res =
      (true, Except.error (GenError.httpErr
        ("Generate failed (" ++ toString res.status ++ ")") res.status res.bodyText)) := by
  simp [generatePrompt, h1, HttpResponse.isOkStatus, h2]

/-- C4 witness: status 500 with body text "server down" yields the error
with status 500 and bodyText "server down". -/
theorem generatePrompt_http_failure_witness :
    generatePrompt c1Settings { status := 500, bodyText := "server down", parsedJson := none } =
      (true, Except.error (GenError.httpErr
        ("Generate failed (" ++ toString (500 : Nat) ++ ")") 500 "server down")) :=
  generatePrompt_http_failure c1Settings _ (buildRequestBody c1Settings "Acme" "Topic here")
    (by rfl) (by decide)

/-- C5: on a 2xx response whose body is not parseable JSON (safeReadJson
yields null) or whose decoded body has no string `prompt` field, the call
rejects with the invalid/missing-prompt HTTP error still carrying the
status and the raw body text. -/
theorem generatePrompt_invalid_prompt_response (s : Settings) (res : HttpResponse)
    (b : GenerationRequest)
    (h1 : generatePromptRequest s = Except.ok b)
    (h2 : 200 ≤ res.status ∧ res.status < 300)
    (h3 : res.parsedJson = none ∨
      ∃ body, res.parsedJson = some body ∧ ∀ t, body.promptField ≠ PromptField.str t) :
    generatePrompt s res =
      (true, Except.error (GenError.httpErr
        "Generate response was not valid JSON (or missing prompt)"
        res.status res.bodyText)) := by
  rcases h3 with h3 | ⟨body, hb, hp⟩
  · simp [generatePrompt, h1, HttpResponse.isOkStatus, h2, h3]
  · cases hpf : body.promptField with
    | str t => exact absurd hpf (hp t)
    | missing => simp [generatePrompt, h1, HttpResponse.isOkStatus, h2, hb, hpf]
    | nonString => simp [generatePrompt, h1, HttpResponse.isOkStatus, h2, hb, hpf]

/-- C5 witness: a 200 response with an unparseable body. -/
theorem generatePrompt_invalid_prompt_response_witness :
    generatePrompt c1Settings { status := 200, bodyText := "oops", parsedJson := none } =
      (true, Except.error (GenError.httpErr
        "Generate response was not valid JSON (or missing prompt)" 200 "oops")) :=
  generatePrompt_invalid_prompt_response c1Settings _
    (buildRequestBody c1Settings "Acme" "Topic here") (by rfl) (by decide) (Or.inl rfl)

/-- Concrete input refuting C6 as stated: valid brand name and topic, but
no context and no brandDo. -/
def c6Settings : Settings := { brandName := some "Acme", topic := some "t" }

/-- C6 counterexample: on c6Settings the posted body carries
`additional_context` and `style.formatting_notes` equal to JSON `null`.
JSON.stringify serializes a null field as a present key, so these fields
are neither a string nor absent, refuting "each either a string or
absent". -/
theorem requestBody_optional_fields_counterexample :
    (generatePromptRequest c6Settings).toOption.map (fun b => b.additional_context)
        = some StrOrNull.null ∧
    (generatePromptRequest c6Settings).toOption.map (fun b => b.style.formatting_notes)
        = some StrOrNull.null ∧
    StrOrNull.null.isStr = false :=
  ⟨rfl, rfl, rfl⟩

/-- Each `expr || null` field is null or a non-empty string. -/
lemma strOrNullOfTrim_cases (o : Option String) :
    strOrNullOfTrim o = StrOrNull.null ∨
      ∃ t, strOrNullOfTrim o = StrOrNull.str t ∧ t ≠ "" := by
  unfold strOrNullOfTrim
  by_cases h : jsTrim (o.getD "") = ""
  · left; simp [h]
  · right; exact ⟨_, by simp [h], h⟩

/-- C6 amended: in every posted request body the fields
`additional_context` and `style.formatting_notes` are each either a
non-empty string or JSON `null` (the key is always present, never absent),
and the style block carries the fixed defaults length = "medium",
include_hashtags = true, emoji_level = 0. -/
theorem requestBody_optional_fields_spec (s : Settings) (b : GenerationRequest)
    (h : generatePromptRequest s = Except.ok b) :
    (b.additional_context = StrOrNull.null ∨
      ∃ t, b.additional_context = StrOrNull.str t ∧ t ≠ "") ∧
    (b.style.formatting_notes = StrOrNull.null ∨
      ∃ t, b.style.formatting_notes = StrOrNull.str t ∧ t ≠ "") ∧
    b.style.length = "medium" ∧ b.style.include_hashtags = true ∧
    b.style.emoji_level = 0 := by
  have hbody : b = buildRequestBody s (jsTrim (s.brandName.getD "")) (briefOf s) := by
    by_cases hbn : jsTrim (s.brandName.getD "") = ""
    · simp [generatePromptRequest, hbn] at h
    · by_cases hbr : briefOf s = ""
      · simp [generatePromptRequest, hbn, hbr] at h
      · simp [generatePromptRequest, hbn, hbr] at h
        exact h.symm
  subst hbody
  exact ⟨strOrNullOfTrim_cases s.context, strOrNullOfTrim_cases s.brandDo, rfl, rfl, rfl⟩

/-- C6 amended witness: the style defaults, instantiated on the worked
example's posted body. -/
theorem requestBody_optional_fields_spec_witness :
    (buildRequestBody c1Settings "Acme" "Topic here").style.length = "medium" ∧
    (buildRequestBody c1Settings "Acme" "Topic here").style.include_hashtags = true ∧
    (buildRequestBody c1Settings "Acme" "Topic here").style.emoji_level = 0 :=
  ⟨(requestBody_optional_fields_spec c1Settings _ rfl).2.2.1,
   (requestBody_optional_fields_spec c1Settings _ rfl).2.2.2.1,
   (requestBody_optional_fields_spec c1Settings _ rfl).2.2.2.2⟩

/-- C7: with exactly one backend active (extension API present and working,
or extension API absent and the fallback store working), saving a settings
record and then loading returns that record. -/
theorem saveSettings_loadSettings_roundtrip (w : StorageWorld) (s : Settings)
    (h : (w.chromePresent = true ∧ w.chromeGetFails = false ∧ w.chromeSetFails = false) ∨
      (w.chromePresent = false ∧ w.localFails = false)) :
    Except.bind (saveSettings w s) loadSettings = Except.ok s := by
  rcases h with ⟨h1, h2, h3⟩ | ⟨h1, h2⟩
  · simp [saveSettings, loadSettings, Except.bind, h1, h2, h3]
  · simp [saveSettings, loadSettings, Except.bind, h1, h2]

/-- C7 witness: round trip through the browser-local fallback backend. -/
theorem saveSettings_loadSettings_roundtrip_witness :
    Except.bind (saveSettings
        { chromePresent := false, chromeGetFails := false, chromeSetFails := false,
          chromeStore := none, localFails := false, localStore := none }
        c1Settings) loadSettings = Except.ok c1Settings :=
  saveSettings_loadSettings_roundtrip _ _ (Or.inr ⟨rfl, rfl⟩)

/-- A world where the extension API is absent and localStorage throws: the
total-failure configuration of the storage shim. -/
def totalFailureWorld : StorageWorld :=
  { chromePresent := false, chromeGetFails := false, chromeSetFails := false,
    chromeStore := none, localFails := true, localStore := none }

/-- C8: loadSettings and saveSettings never raise (never produce the
Except.error that models an uncaught exception) in any combination of
backend availability and failure, and on total failure loadSettings
returns the empty record. -/
theorem storage_never_raises (w : StorageWorld) (s : Settings) :
    loadSettings w ≠ Except.error () ∧ saveSettings w s ≠ Except.error () ∧
    (((w.chromePresent = false ∨ w.chromeGetFails = true) ∧ w.localFails = true) →
      loadSettings w = Except.ok emptySettings) := by
  rcases w with ⟨cp, cgf, csf, cs, lf, ls⟩
  refine ⟨?_, ?_, ?_⟩
  · cases cp <;> cases cgf <;> cases lf <;> simp [loadSettings]
  · cases cp <;> cases csf <;> cases lf <;> simp [saveSettings]
  · rintro ⟨h1, h2⟩
    rcases h1 with h1 | h1 <;> simp_all [loadSettings]

/-- C8 witness: the total-failure world. -/
theorem storage_never_raises_witness :
    loadSettings totalFailureWorld ≠ Except.error () ∧
    saveSettings totalFailureWorld c1Settings ≠ Except.error () ∧
    loadSettings totalFailureWorld = Except.ok emptySettings :=
  ⟨(storage_never_raises totalFailureWorld c1Settings).1,
   (storage_never_raises totalFailureWorld c1Settings).2.1,
   (storage_never_raises totalFailureWorld c1Settings).2.2 ⟨Or.inl rfl, rfl⟩⟩

/-- C10: while the extension storage API is present and its get succeeds,
loadSettings returns the extension backend's value for the key (empty
record when absent), and the result is unchanged under any state of the
browser-local fallback store - a fallback-persisted value is shadowed. -/
theorem loadSettings_prefers_extension_storage (w : StorageWorld) (ls : Option Settings)
    (lf : Bool) (h1 : w.chromePresent = true) (h2 : w.chromeGetFails = false) :
    loadSettings w = Except.ok (w.chromeStore.getD emptySettings) ∧
    loadSettings { w with localStore := ls, localFails := lf }
      = Except.ok (w.chromeStore.getD emptySettings) := by
  constructor <;> simp [loadSettings, h1, h2]

/-- A world with a working extension backend holding a record while the
fallback store holds a different one. -/
def chromeOnlyWorld : StorageWorld :=
  { chromePresent := true, chromeGetFails := false, chromeSetFails := false,
    chromeStore := some c1Settings, localFails := false, localStore := some emptySettings }

/-- C10 witness: the extension value wins and local fields are ignored. -/
theorem loadSettings_prefers_extension_storage_witness :
    loadSettings chromeOnlyWorld = Except.ok c1Settings ∧
    loadSettings { chromeOnlyWorld with localStore := none, localFails := true }
      = Except.ok c1Settings :=
  loadSettings_prefers_extension_storage chromeOnlyWorld none true rfl rfl

/-- The URL inferred for a non-localhost page is never the empty string. -/
lemma inferredUrl_ne_empty (p h : String) : p ++ "//" ++ h ++ ":" ++ "3001" ≠ "" := by
  intro hc
  have hd := congrArg String.data hc
  simp [String.data_append] at hd

/-- C9: resolveBaseUrl returns the trimmed, trailing-slash-stripped
settings URL when the trimmed value is non-empty (so
"http://x:3001///" yields "http://x:3001"); with no usable settings URL it
infers protocol//hostname:3001 from the page location for a non-localhost
host, returns the hardcoded default for a localhost page, and returns the
hardcoded default when no page context exists. Total, hence never
raises. -/
theorem resolveBaseUrl_spec :
    (∀ (window : Option WindowLocation) (st : Settings) (u : String),
      st.backendBaseUrl = some u → jsTrim u ≠ "" →
      resolveBaseUrl window (some st) = stripTrailingSlashes (jsTrim u)) ∧
    (∀ window : Option WindowLocation,
      resolveBaseUrl window
          (some { emptySettings with backendBaseUrl := some "http://x:3001///" })
        = "http://x:3001") ∧
    (∀ (st : Settings) (loc : WindowLocation),
      jsTrim (st.backendBaseUrl.getD "") = "" →
      loc.hostname ≠ "localhost" → loc.hostname ≠ "127.0.0.1" →
      resolveBaseUrl (some loc) (some st)
        = stripTrailingSlashes (loc.protocol ++ "//" ++ loc.hostname ++ ":" ++ "3001")) ∧
    (∀ (st : Settings) (loc : WindowLocation),
      jsTrim (st.backendBaseUrl.getD "") = "" →
      (loc.hostname = "localhost" ∨ loc.hostname = "127.0.0.1") →
      resolveBaseUrl (some loc) (some st) = DEFAULT_BASE_URL) ∧
    (∀ st : Settings, jsTrim (st.backendBaseUrl.getD "") = "" →
      resolveBaseUrl none (some st) = DEFAULT_BASE_URL) ∧
    resolveBaseUrl none none = DEFAULT_BASE_URL := by
  refine ⟨?_, ?_, ?_, ?_, ?_, rfl⟩
  · intro window st u hu ht
    simp [resolveBaseUrl, jsOrS, hu, ht]
  · intro window
    rfl
  · intro st loc h hl1 hl2
    cases hb : st.backendBaseUrl with
    | none =>
      simp [resolveBaseUrl, jsOrS, inferBackendUrlFromWindowLocation, hb, hl1, hl2,
        inferredUrl_ne_empty]
    | some u =>
      have hu : jsTrim u = "" := by simpa [hb] using h
      simp [resolveBaseUrl, jsOrS, inferBackendUrlFromWindowLocation, hb, hl1, hl2, hu,
        inferredUrl_ne_empty]
  · intro st loc h hl
    cases hb : st.backendBaseUrl with
    | none =>
      rcases hl with hl | hl <;>
        simp [resolveBaseUrl, jsOrS, inferBackendUrlFromWindowLocation, hb, hl,
          DEFAULT_BASE_URL, stripTrailingSlashes]
    | some u =>
      have hu : jsTrim u = "" := by simpa [hb] using h
      rcases hl with hl | hl <;>
        simp [resolveBaseUrl, jsOrS, inferBackendUrlFromWindowLocation, hb, hl, hu,
          DEFAULT_BASE_URL, stripTrailingSlashes]
  · intro st h
    cases hb : st.backendBaseUrl with
    | none =>
      simp [resolveBaseUrl, jsOrS, inferBackendUrlFromWindowLocation, hb,
        DEFAULT_BASE_URL, stripTrailingSlashes]
    | some u =>
      have hu : jsTrim u = "" := by simpa [hb] using h
      simp [resolveBaseUrl, jsOrS, inferBackendUrlFromWindowLocation, hb, hu,
        DEFAULT_BASE_URL, stripTrailingSlashes]

/-- C9 witness: the spec's trailing-slash example, via the general settings
branch of the theorem. -/
theorem resolveBaseUrl_spec_witness :
    resolveBaseUrl none (some { emptySettings with backendBaseUrl := some "http://x:3001///" })
      = stripTrailingSlashes (jsTrim "http://x:3001///") :=
  resolveBaseUrl_spec.1 none _ "http://x:3001///" rfl (by decide)
